import Mathlib

/-!
Shallow embedding of `src/heat_coil.c`, a Linux kernel module that drives a
resistive heating coil over GPIO while sampling a MAX6675 thermocouple
converter, and proofs of the specification claims about it.

Module-scope state in the C source is the pair of globals `heating` (int,
used as a boolean) and `temp` (u16), plus the four GPIO lines.  We model the
observable coil state as a record `CoilState` (the `heating` flag, the level
of the HEAT output line, and the published temperature), and every side
effect of interest (GPIO writes, GPIO frees, chrdev unregistration, thread
stop, printk log records) as an explicit `Event` trace so that ordering
claims can be stated.
-/

namespace HeatCoil

/-- `#define CS_PIN 24` -/
def CS_PIN : Nat := 24

/-- `#define CLK_PIN 23` -/
def CLK_PIN : Nat := 23

/-- `#define DATA_PIN 22` -/
def DATA_PIN : Nat := 22

/-- `#define HEAT_PIN 6` -/
def HEAT_PIN : Nat := 6

/-- `#define TEMP_MINOR 0` -/
def TEMP_MINOR : Nat := 0

/-- `#define STATUS_MINOR 1` -/
def STATUS_MINOR : Nat := 1

/-- `#define TEMP_LIMIT 2151` — the soft ceiling, in ticks (1 tick = 0.25 C). -/
def TEMP_LIMIT : Nat := 2151

/-- `#define TEMP_LIMIT_2 2662` — the hard ceiling enforced by the watchdog. -/
def TEMP_LIMIT_2 : Nat := 2662

/-- Linux `EFAULT` errno (returned negated as `-EFAULT`). -/
def EFAULT : Int := 14

/-- Linux `EINVAL` errno (returned negated as `-EINVAL`). -/
def EINVAL : Int := 22

/-- The module-scope mutable state of heat_coil.c:
`static int heating`, the level currently driven on the HEAT GPIO line,
and `static u16 temp` (a natural number kept below 2^16). -/
structure CoilState where
  heating : Bool
  heatPin : Bool
  temp : Nat
  deriving Repr, DecidableEq

/-- Observable side effects of the C code, in program order.  The three
log constructors stand for the corresponding `printk` strings:
`logCoilOn` for "heating coil was turned on", `logCoilOff` for
"heating coil was turned off", and `logOverTemp` for
"THERMAL LIMIT EXCEEDED, TURNING OFF HEATING COIL". -/
inductive Event where
  | gpioSet (pin : Nat) (level : Bool)
  | gpioFree (pin : Nat)
  | unregisterTemp
  | unregisterStatus
  | kthreadStopEv
  | logCoilOn
  | logCoilOff
  | logOverTemp
  deriving Repr, DecidableEq

/-- `turn_heating_coil_on`:
```c
if (TEMP_LIMIT < temp) return;
heating = 1;
gpio_set_value(HEAT_PIN, heating);
printk("heating coil was turned on\n");
``` -/
def turn_heating_coil_on (s : CoilState) : CoilState × List Event :=
  if TEMP_LIMIT < s.temp then (s, [])
  else
    ({ s with heating := true, heatPin := true },
     [Event.gpioSet HEAT_PIN true, Event.logCoilOn])

/-- `turn_heating_coil_off`:
```c
gpio_set_value(HEAT_PIN, 0);
heating = 0;
printk("heating coil was turned off\n");
```
The HEAT line is driven low before the flag is cleared; the event trace
records that order. -/
def turn_heating_coil_off (s : CoilState) : CoilState × List Event :=
  ({ s with heating := false, heatPin := false },
   [Event.gpioSet HEAT_PIN false, Event.logCoilOff])

/-- One iteration of the `watchdog_fn` loop body, for a given value returned
by `temp_data()`:
```c
temp = temp_data();
if ((TEMP_LIMIT_2 < temp) && heating) {
  printk("THERMAL LIMIT EXCEEDED, TURNING OFF HEATING COIL\n");
  turn_heating_coil_off();
}
```
`temp` is a `u16`, hence the `% 65536` on the published value. -/
def watchdog_fn_iter (sample : Nat) (s : CoilState) : CoilState × List Event :=
  let s1 := { s with temp := sample % 65536 }
  if TEMP_LIMIT_2 < s1.temp ∧ s1.heating = true then
    let r := turn_heating_coil_off s1
    (r.1, Event.logOverTemp :: r.2)
  else (s1, [])

/-- A finite run of the watchdog loop over a schedule of sampled values,
accumulating the event trace of every iteration. -/
def watchdog_fn_run (samples : List Nat) (s : CoilState) : CoilState × List Event :=
  match samples with
  | [] => (s, [])
  | v :: rest =>
    let r := watchdog_fn_iter v s
    let r2 := watchdog_fn_run rest r.1
    (r2.1, r.2 ++ r2.2)

/-- The bit-accumulation loop of `temp_data`, over the successive levels
sampled on the DATA line (MSB first):
```c
for (i = 0; i <= 15; i++) { ... data = data << 1; if (DATA == 1) data |= 1; ... }
```
`data` is a `u16`, so the shift is taken modulo 2^16. -/
def temp_data_loop (bits : List Bool) (data : Nat) : Nat :=
  match bits with
  | [] => data
  | b :: rest => temp_data_loop rest ((data * 2 + (if b then 1 else 0)) % 65536)

/-- `temp_data`: clock in 16 bits MSB-first from the DATA line, then
`return ((data >> 3) & 0xFFF);`. -/
def temp_data (bits : List Bool) : Nat :=
  temp_data_loop bits 0 / 8 % 4096

/-- The value of a bit string read MSB-first: the 16-bit frame `F` whose
bits were clocked out on the DATA line. -/
def bitsToNat (bits : List Bool) : Nat :=
  match bits with
  | [] => 0
  | b :: rest => (if b then 1 else 0) * 2 ^ rest.length + bitsToNat rest

/-- The `w`-bit binary expansion of `F`, MSB first. -/
def toBitsM (w : Nat) (F : Nat) : List Bool :=
  match w with
  | 0 => []
  | n + 1 => F.testBit n :: toBitsM n F

/-- The ASCII bytes `sprintf` produces for `%hu` / `%d` of a natural number:
its decimal digits, most significant first. -/
def decDigits (n : Nat) : List Nat :=
  if h : n < 10 then [48 + n]
  else decDigits (n / 10) ++ [48 + n % 10]
decreasing_by exact Nat.div_lt_self (by omega) (by norm_num)

/-- The numeric value denoted by a list of ASCII decimal digit bytes,
most significant first (specification-side inverse of `decDigits`). -/
def decVal (ds : List Nat) : Nat :=
  match ds with
  | [] => 0
  | d :: rest => (d - 48) * 10 ^ rest.length + decVal rest

/-- Result of a `dev_read` call: the (unchanged) module state, the return
value, and the bytes copied to the user buffer on success. -/
structure ReadResult where
  state : CoilState
  ret : Int
  copied : List Nat
  deriving Repr, DecidableEq

/-- `dev_read`.  For the TEMP minor the C code does
`sprintf(temp_string, "%hu\n", temp)` into a 5-byte stack buffer and copies
5 bytes to the user; `sprintf` writes the digits, a newline and a NUL, and
any buffer byte beyond those keeps its prior (uninitialized) stack content,
modelled by the `junk` parameter.  For the STATUS minor it does
`sprintf(status_string, "%d\n", heating)` into a 2-byte buffer and copies
2 bytes.  `copyFault` models `copy_to_user` returning nonzero, in which
case the C returns `-EFAULT`.  Any other minor returns `-EFAULT`.
`dev_read` writes no module state. -/
def dev_read (minor : Nat) (copyFault : Bool) (junk : List Nat)
    (s : CoilState) : ReadResult :=
  if minor = TEMP_MINOR then
    let temp_string := (decDigits s.temp ++ [10, 0] ++ junk).take 5
    if copyFault then ⟨s, -EFAULT, []⟩ else ⟨s, 5, temp_string⟩
  else if minor = STATUS_MINOR then
    let status_string := ((if s.heating then [49] else [48]) ++ [10, 0]).take 2
    if copyFault then ⟨s, -EFAULT, []⟩ else ⟨s, 2, status_string⟩
  else ⟨s, -EFAULT, []⟩

/-- Result of a `dev_write` call: the module state after the call, the
event trace, the return value, and whether the call read past the end of
the `kmalloc(len)` buffer (the `user_input[0]` access when `len = 0`). -/
structure WriteResult where
  state : CoilState
  events : List Event
  ret : Int
  oobRead : Bool
  deriving Repr, DecidableEq

/-- `dev_write`.  `kbuf` is the content of the `kmalloc(len)` kernel buffer
after `copy_from_user` ran, so `kbuf.length = len`.  `copyFault` models
`copy_from_user` returning nonzero; the C code IGNORES that return value,
so `copyFault` influences nothing below — exactly as in the source.  For
the STATUS minor the first buffer byte is inspected: `'1'` (49) calls
`turn_heating_coil_on`, anything else calls `turn_heating_coil_off`.  When
`len = 0` that inspection reads index 0 of a zero-length allocation; we
record it in `oobRead` and (the behavior being undefined in C) leave the
state unchanged.  Every path returns `len`. -/
def dev_write (minor : Nat) (kbuf : List Nat) (copyFault : Bool)
    (s : CoilState) : WriteResult :=
  let len : Int := Int.ofNat kbuf.length
  if minor = TEMP_MINOR then ⟨s, [], len, false⟩
  else if minor = STATUS_MINOR then
    match kbuf with
    | [] => ⟨s, [], len, true⟩
    | b :: _ =>
      if b = 49 then
        let r := turn_heating_coil_on s
        ⟨r.1, r.2, len, false⟩
      else
        let r := turn_heating_coil_off s
        ⟨r.1, r.2, len, false⟩
  else ⟨s, [], len, false⟩

/-- `dev_release`:
```c
int minor = iminor(filep->f_inode);
if (minor == STATUS_MINOR) turn_heating_coil_off();
return 0;
``` -/
def dev_release (minor : Nat) (s : CoilState) : CoilState × List Event × Int :=
  if minor = STATUS_MINOR then
    let r := turn_heating_coil_off s
    (r.1, r.2, 0)
  else (s, [], 0)

/-- `dev_open`: switches on the minor and does nothing; returns 0. -/
def dev_open (minor : Nat) (s : CoilState) : CoilState × Int :=
  (s, 0)

/-- One client operation on the STATUS endpoint, for reasoning about
whole open/read/write/close sequences. -/
inductive StatusOp where
  | opOpen
  | opRead (copyFault : Bool)
  | opWrite (kbuf : List Nat) (copyFault : Bool)
  | opClose
  deriving Repr, DecidableEq

/-- The module state after one client operation on the STATUS endpoint
(minor `STATUS_MINOR`). -/
def statusStep (op : StatusOp) (s : CoilState) : CoilState :=
  match op with
  | StatusOp.opOpen => (dev_open STATUS_MINOR s).1
  | StatusOp.opRead cf => (dev_read STATUS_MINOR cf [] s).state
  | StatusOp.opWrite kbuf cf => (dev_write STATUS_MINOR kbuf cf s).state
  | StatusOp.opClose => (dev_release STATUS_MINOR s).1

/-- Run a sequence of client operations on the STATUS endpoint,
threading the module state. -/
def runStatusOps (ops : List StatusOp) (s : CoilState) : CoilState :=
  match ops with
  | [] => s
  | op :: rest => runStatusOps rest (statusStep op s)

/-- Module state right after `gpio_init` in `coil_init`: the HEAT line is
configured output-low (`gpio_direction_output(HEAT_PIN, 0)`), `heating`
and `temp` have their C static initial values 0. -/
def initState : CoilState :=
  { heating := false, heatPin := false, temp := 0 }

/-- Result of `coil_init`. -/
structure InitResult where
  ret : Int
  statusRegistered : Bool
  watchdogRunning : Bool
  state : CoilState
  deriving Repr, DecidableEq

/-- `coil_init`, as a function of its two environment outcomes: `major`,
the value `register_chrdev(0, TEMP_DEVICE_NAME, &fops)` returned, and
`threadCreated`, whether `kthread_create` returned a non-NULL task.
```c
major = register_chrdev(0, TEMP_DEVICE_NAME, &fops);
if (major > 0) register_chrdev(major, STATUS_DEVICE_NAME, &fops);
if (major < 0) return major;
gpio_init();
watchdog_thread = kthread_create(watchdog_fn, NULL, threadName);
if (watchdog_thread) wake_up_process(watchdog_thread);
return 0;
```
Note that the thread-creation outcome never affects the return value. -/
def coil_init (major : Int) (threadCreated : Bool) : InitResult :=
  let statusReg := decide (0 < major)
  if major < 0 then
    ⟨major, statusReg, false, initState⟩
  else
    ⟨0, statusReg, threadCreated, initState⟩

/-- `coil_exit`:
```c
unregister_chrdev(major, TEMP_DEVICE_NAME);
unregister_chrdev(major, STATUS_DEVICE_NAME);
kthread_stop(watchdog_thread);
gpio_exit();
```
`kthread_stop` waits for the watchdog to finish; `finalSamples` is the
schedule of samples of any watchdog iterations that complete before it
returns (empty if the watchdog was already parked).  `gpio_exit` frees the
four lines; it performs no `gpio_set_value` call. -/
def coil_exit (finalSamples : List Nat) (s : CoilState) :
    CoilState × List Event :=
  let r := watchdog_fn_run finalSamples s
  (r.1,
   [Event.unregisterTemp, Event.unregisterStatus] ++ r.2 ++
   [Event.kthreadStopEv, Event.gpioFree CS_PIN, Event.gpioFree CLK_PIN,
    Event.gpioFree DATA_PIN, Event.gpioFree HEAT_PIN])

/-! ## Helper lemmas -/

/-- The bit-accumulation loop computes the value of the bit string
(MSB first), modulo the u16 width. -/
theorem temp_data_loop_eq (bits : List Bool) (d : Nat) (hd : d < 65536) :
    temp_data_loop bits d = (d * 2 ^ bits.length + bitsToNat bits) % 65536 := by
  induction bits generalizing d with
  | nil =>
    simp [temp_data_loop, bitsToNat, Nat.mod_eq_of_lt hd]
  | cons b rest ih =>
    have h2 : (d * 2 + (if b then 1 else 0)) % 65536 < 65536 :=
      Nat.mod_lt _ (by norm_num)
    rw [temp_data_loop, ih _ h2, List.length_cons, bitsToNat]
    have key : ((d * 2 + (if b then 1 else 0)) % 65536 * 2 ^ rest.length +
          bitsToNat rest) % 65536
        = ((d * 2 + (if b then 1 else 0)) * 2 ^ rest.length +
          bitsToNat rest) % 65536 :=
      ((Nat.mod_modEq _ 65536).mul_right _).add_right _
    rw [key]
    congr 1
    ring

/-- `toBitsM` produces exactly `w` bits. -/
theorem length_toBitsM (w F : Nat) : (toBitsM w F).length = w := by
  induction w with
  | zero => rfl
  | succ n ih => simp [toBitsM, ih]

/-- The MSB-first expansion round-trips through `bitsToNat`. -/
theorem bitsToNat_toBitsM (w F : Nat) : bitsToNat (toBitsM w F) = F % 2 ^ w := by
  induction w with
  | zero => simp [toBitsM, bitsToNat, Nat.mod_one]
  | succ n ih =>
    have hdm : F / 2 ^ n % 2 = 0 ∨ F / 2 ^ n % 2 = 1 :=
      Nat.mod_two_eq_zero_or_one _
    rw [toBitsM, bitsToNat, length_toBitsM, ih, Nat.mod_pow_succ,
      Nat.testBit_to_div_mod]
    rcases hdm with h | h <;> simp [h] <;> omega

/-- `temp_data` on the 16-bit expansion of a frame `F` returns
`(F >> 3) & 0x0FFF`. -/
theorem temp_data_frame (F : Nat) (hF : F < 65536) :
    temp_data (toBitsM 16 F) = F / 8 % 4096 := by
  unfold temp_data
  rw [temp_data_loop_eq _ 0 (by norm_num), length_toBitsM, bitsToNat_toBitsM]
  have h16 : (2 : Nat) ^ 16 = 65536 := by norm_num
  rw [h16, Nat.mod_eq_of_lt hF]
  simp [Nat.mod_eq_of_lt hF]

/-- Appending a final digit multiplies the value by ten. -/
theorem decVal_append_digit (ds : List Nat) (d : Nat) :
    decVal (ds ++ [d]) = decVal ds * 10 + (d - 48) := by
  induction ds with
  | nil => simp [decVal]
  | cons x rest ih =>
    simp only [List.cons_append, decVal, List.append_eq, ih]
    have hlen : (rest ++ [d]).length = rest.length + 1 := by simp
    rw [hlen]
    ring

/-- `decDigits` is a faithful decimal representation: reading the ASCII
digits back gives the original number. -/
theorem decVal_decDigits (n : Nat) : decVal (decDigits n) = n := by
  induction n using Nat.strong_induction_on with
  | _ n ih =>
    rw [decDigits]
    split
    · simp [decVal]
    · next h =>
      rw [decVal_append_digit,
        ih (n / 10) (Nat.div_lt_self (by omega) (by norm_num))]
      omega

/-- Every byte `decDigits` produces is an ASCII decimal digit. -/
theorem decDigits_digits (n : Nat) :
    ∀ d ∈ decDigits n, 48 ≤ d ∧ d ≤ 57 := by
  induction n using Nat.strong_induction_on with
  | _ n ih =>
    rw [decDigits]
    split
    · next h => intro d hd; simp at hd; omega
    · next h =>
      intro d hd
      rcases List.mem_append.mp hd with hl | hr
      · exact ih (n / 10) (Nat.div_lt_self (by omega) (by norm_num)) d hl
      · simp at hr
        have : n % 10 < 10 := Nat.mod_lt _ (by norm_num)
        omega

/-- A number below `10 ^ (k + 1)` has at most `k + 1` decimal digits. -/
theorem decDigits_length_le (k : Nat) :
    ∀ n, n < 10 ^ (k + 1) → (decDigits n).length ≤ k + 1 := by
  induction k with
  | zero =>
    intro n h
    norm_num at h
    rw [decDigits]
    split
    · simp
    · next hn => exact absurd h hn
  | succ k ih =>
    intro n h
    rw [decDigits]
    split
    · simp
    · next hn =>
      rw [List.length_append]
      have hp : (10 : Nat) ^ (k + 1 + 1) = 10 ^ (k + 1) * 10 := by ring
      have hdiv : n / 10 < 10 ^ (k + 1) := by omega
      have := ih (n / 10) hdiv
      simp only [List.length_cons, List.length_nil]
      omega

/-- `statusStep` never writes `temp`: only the watchdog publishes it. -/
theorem statusStep_temp (op : StatusOp) (s : CoilState) :
    (statusStep op s).temp = s.temp := by
  cases op with
  | opOpen => rfl
  | opRead cf =>
    simp [statusStep, dev_read, STATUS_MINOR, TEMP_MINOR]
    cases cf <;> simp
  | opWrite kbuf cf =>
    simp only [statusStep, dev_write, STATUS_MINOR, TEMP_MINOR]
    cases kbuf with
    | nil => rfl
    | cons b rest =>
      by_cases hb : b = 49 <;>
        simp [hb, turn_heating_coil_on, turn_heating_coil_off] <;>
        split <;> rfl
  | opClose =>
    simp [statusStep, dev_release, STATUS_MINOR, turn_heating_coil_off]

/-- Runs compose over list append. -/
theorem runStatusOps_append (xs ys : List StatusOp) (s : CoilState) :
    runStatusOps (xs ++ ys) s = runStatusOps ys (runStatusOps xs s) := by
  induction xs generalizing s with
  | nil => rfl
  | cons op rest ih =>
    rw [List.cons_append, runStatusOps, runStatusOps, ih]

/-- No STATUS-endpoint client operation changes the published `temp`. -/
theorem runStatusOps_temp (ops : List StatusOp) (s : CoilState) :
    (runStatusOps ops s).temp = s.temp := by
  induction ops generalizing s with
  | nil => rfl
  | cons op rest ih =>
    rw [runStatusOps, ih, statusStep_temp]

/-! ## Claim theorems -/

/-- C1: the claim says the exit path drives HEAT low before the HEAT pin is
released whenever `heating = true` at the start of the exit sequence.  The
code does not: `coil_exit` only unregisters the devices, stops the watchdog
and frees the pins.  Starting from `heating = true`, `heatPin = true`,
`temp = 500`, and even granting the watchdog a final iteration (sample 500,
below the hard ceiling), the exit completes with `heating` and the HEAT
line still high, the trace contains no HEAT-low GPIO write at all, and the
HEAT pin is freed while the line is high. -/
theorem coil_exit_leaves_heat_high :
    (coil_exit [500] { heating := true, heatPin := true, temp := 500 }).1.heating = true ∧
    (coil_exit [500] { heating := true, heatPin := true, temp := 500 }).1.heatPin = true ∧
    Event.gpioSet HEAT_PIN false ∉
      (coil_exit [500] { heating := true, heatPin := true, temp := 500 }).2 ∧
    Event.gpioFree HEAT_PIN ∈
      (coil_exit [500] { heating := true, heatPin := true, temp := 500 }).2 := by
  decide

/-- C2: in each watchdog iteration, after the fresh sample is published
into `temp`, if the published value exceeds `TEMP_LIMIT_2 = 2662` and
`heating` is true then the iteration logs the over-temperature event and
disengages (heating false, HEAT low); consequently after any completed
iteration it is never the case that `heating = true` with published
`temp > 2662`. -/
theorem watchdog_iter_enforces_hard_ceiling (sample : Nat) (s : CoilState) :
    ((TEMP_LIMIT_2 < sample % 65536 ∧ s.heating = true) →
      Event.logOverTemp ∈ (watchdog_fn_iter sample s).2 ∧
      (watchdog_fn_iter sample s).1.heating = false ∧
      (watchdog_fn_iter sample s).1.heatPin = false) ∧
    ¬((watchdog_fn_iter sample s).1.heating = true ∧
      TEMP_LIMIT_2 < (watchdog_fn_iter sample s).1.temp) := by
  unfold watchdog_fn_iter
  by_cases h : TEMP_LIMIT_2 < sample % 65536 ∧ s.heating = true
  · simp [h, turn_heating_coil_off]
  · simp only [if_neg h]
    constructor
    · intro hc; exact absurd hc h
    · intro hc
      exact h ⟨hc.2, hc.1⟩

/-- C2 witness: iteration at sample 2700 with the coil engaged trips the
hard ceiling. -/
theorem watchdog_iter_enforces_hard_ceiling_witness :
    Event.logOverTemp ∈
      (watchdog_fn_iter 2700 { heating := true, heatPin := true, temp := 500 }).2 ∧
    (watchdog_fn_iter 2700 { heating := true, heatPin := true, temp := 500 }).1.heating
      = false := by
  have h := watchdog_iter_enforces_hard_ceiling 2700
    { heating := true, heatPin := true, temp := 500 }
  exact ⟨(h.1 (by decide)).1, (h.1 (by decide)).2.1⟩

/-- C3 counterexample: the state with `heating = true`, HEAT high and
published `temp = 2200 > TEMP_LIMIT` is reachable (engage from the initial
state, then a watchdog sample of 2200, which is below the hard ceiling);
in it an engage request leaves `heating = true`, so the claim's "leaves
heating = false and HEAT low" is false as stated: the soft ceiling only
refuses new engagement, it does not force an already-heating coil off. -/
theorem engage_above_soft_not_forced_off :
    (watchdog_fn_iter 2200 (turn_heating_coil_on initState).1).1 =
      { heating := true, heatPin := true, temp := 2200 } ∧
    TEMP_LIMIT < 2200 ∧
    ¬((turn_heating_coil_on
        { heating := true, heatPin := true, temp := 2200 }).1.heating = false ∧
      (turn_heating_coil_on
        { heating := true, heatPin := true, temp := 2200 }).1.heatPin = false) := by
  decide

/-- C3 (amended): whenever `temp > TEMP_LIMIT = 2151` an engage request
returns without any effect (state unchanged, no event) — in particular if
`heating` was false and HEAT low they remain so; a transition of `heating`
from false to true happens only while `temp ≤ 2151`; and engage at exactly
2151 is permitted and drives HEAT high. -/
theorem engage_soft_ceiling_guard (s : CoilState) :
    (TEMP_LIMIT < s.temp → turn_heating_coil_on s = (s, [])) ∧
    (TEMP_LIMIT < s.temp → s.heating = false → s.heatPin = false →
      (turn_heating_coil_on s).1.heating = false ∧
      (turn_heating_coil_on s).1.heatPin = false) ∧
    ((turn_heating_coil_on s).1.heating = true → s.heating = false →
      s.temp ≤ TEMP_LIMIT) ∧
    (s.temp ≤ TEMP_LIMIT →
      (turn_heating_coil_on s).1.heating = true ∧
      (turn_heating_coil_on s).1.heatPin = true) := by
  unfold turn_heating_coil_on
  by_cases h : TEMP_LIMIT < s.temp
  · refine ⟨fun _ => by rw [if_pos h], fun _ hh hp => ?_, fun hh hf => ?_,
      fun hle => absurd hle (by omega)⟩
    · rw [if_pos h]; exact ⟨hh, hp⟩
    · rw [if_pos h] at hh
      rw [hh] at hf
      simp at hf
  · refine ⟨fun hc => absurd hc h, fun hc => absurd hc h,
      fun _ _ => by omega, fun _ => ?_⟩
    rw [if_neg h]
    exact ⟨rfl, rfl⟩

/-- C3 witness: engage at exactly the soft ceiling (2151 ticks) succeeds,
and engage at 2152 starting cold stays off. -/
theorem engage_soft_ceiling_guard_witness :
    ((turn_heating_coil_on { heating := false, heatPin := false, temp := 2151 }).1.heating
        = true ∧
      (turn_heating_coil_on { heating := false, heatPin := false, temp := 2151 }).1.heatPin
        = true) ∧
    ((turn_heating_coil_on { heating := false, heatPin := false, temp := 2152 }).1.heating
        = false ∧
      (turn_heating_coil_on { heating := false, heatPin := false, temp := 2152 }).1.heatPin
        = false) :=
  ⟨(engage_soft_ceiling_guard _).2.2.2 (by decide),
   (engage_soft_ceiling_guard
      { heating := false, heatPin := false, temp := 2152 }).2.1
     (by decide) rfl rfl⟩

/-- C4: closing the STATUS endpoint unconditionally disengages: for every
state, `dev_release` on the STATUS minor yields `heating = false` and HEAT
low, and hence after any open/read/write/close sequence on STATUS ending in
a close, `heating = false` and HEAT is low, regardless of temperature and
of any prior engage requests. -/
theorem status_close_forces_off (ops : List StatusOp) (s : CoilState) :
    (runStatusOps (ops ++ [StatusOp.opClose]) s).heating = false ∧
    (runStatusOps (ops ++ [StatusOp.opClose]) s).heatPin = false ∧
    ∀ t : CoilState,
      (dev_release STATUS_MINOR t).1.heating = false ∧
      (dev_release STATUS_MINOR t).1.heatPin = false := by
  rw [runStatusOps_append]
  refine ⟨?_, ?_, ?_⟩
  · simp [runStatusOps, statusStep, dev_release, STATUS_MINOR,
      turn_heating_coil_off]
  · simp [runStatusOps, statusStep, dev_release, STATUS_MINOR,
      turn_heating_coil_off]
  · intro t
    simp [dev_release, STATUS_MINOR, turn_heating_coil_off]

/-- C5: for every 16-bit frame `F` clocked in MSB-first, `temp_data`
returns `(F >> 3) & 0x0FFF`, a value below 4096; the result is unchanged
when the three low bits — including bit 2, the open-thermocouple flag —
are cleared, so the flag is never interpreted as temperature; and the
frame 0x1640 decodes to 0x02C8 = 712 ticks. -/
theorem sample_decodes_frame (F : Nat) (hF : F < 65536) :
    temp_data (toBitsM 16 F) = F / 8 % 4096 ∧
    temp_data (toBitsM 16 F) < 4096 ∧
    temp_data (toBitsM 16 F) = temp_data (toBitsM 16 (F / 8 * 8)) ∧
    temp_data (toBitsM 16 5696) = 712 := by
  have h1 := temp_data_frame F hF
  have hle : F / 8 * 8 ≤ F := Nat.div_mul_le_self F 8
  have h2 := temp_data_frame (F / 8 * 8) (Nat.lt_of_le_of_lt hle hF)
  refine ⟨h1, ?_, ?_, ?_⟩
  · rw [h1]; exact Nat.mod_lt _ (by norm_num)
  · rw [h1, h2, Nat.mul_div_cancel _ (by norm_num)]
  · rw [temp_data_frame 5696 (by norm_num)]

/-- C5 witness: the concrete frame 0x1640 = 5696 decodes to 712 ticks. -/
theorem sample_decodes_frame_witness :
    temp_data (toBitsM 16 5696) = 712 :=
  (sample_decodes_frame 5696 (by norm_num)).2.2.2

/-- C6: the claim says a faulting user-buffer copy leaves the coil state
unchanged and returns a transfer-fault error.  `dev_write` ignores the
return value of `copy_from_user`: at the failing input — a STATUS write of
length 1 whose copy faults (kernel buffer left zero-filled) starting from
`heating = true` — the call still returns `len = 1` (reports success, not
`-EFAULT`), still invokes `turn_heating_coil_off`, changing the coil
state; indeed the result does not depend on the fault flag at all. -/
theorem status_write_ignores_copy_fault :
    (dev_write STATUS_MINOR [0] true
      { heating := true, heatPin := true, temp := 0 }).ret = 1 ∧
    (dev_write STATUS_MINOR [0] true
      { heating := true, heatPin := true, temp := 0 }).ret ≠ -EFAULT ∧
    (dev_write STATUS_MINOR [0] true
      { heating := true, heatPin := true, temp := 0 }).state.heating = false ∧
    (dev_write STATUS_MINOR [0] true
      { heating := true, heatPin := true, temp := 0 }).events
      = [Event.gpioSet HEAT_PIN false, Event.logCoilOff] ∧
    (∀ cf : Bool,
      dev_write STATUS_MINOR [0] cf
        { heating := true, heatPin := true, temp := 0 } =
      dev_write STATUS_MINOR [0] false
        { heating := true, heatPin := true, temp := 0 }) := by
  decide

/-- C7: STATUS round-trip.  Writing a buffer whose first byte is `'1'`
(49) while `temp ≤ TEMP_LIMIT` and then reading STATUS yields exactly the
two bytes "1\n" = [49, 10]; writing a buffer whose first byte is anything
other than `'1'` and then reading yields exactly "0\n" = [48, 10]. -/
theorem status_round_trip (s : CoilState) (b : Nat) (rest junk : List Nat) :
    (s.temp ≤ TEMP_LIMIT →
      (dev_read STATUS_MINOR false junk
        (dev_write STATUS_MINOR (49 :: rest) false s).state).copied = [49, 10] ∧
      (dev_read STATUS_MINOR false junk
        (dev_write STATUS_MINOR (49 :: rest) false s).state).ret = 2) ∧
    (b ≠ 49 →
      (dev_read STATUS_MINOR false junk
        (dev_write STATUS_MINOR (b :: rest) false s).state).copied = [48, 10] ∧
      (dev_read STATUS_MINOR false junk
        (dev_write STATUS_MINOR (b :: rest) false s).state).ret = 2) := by
  constructor
  · intro h
    have hng : ¬ TEMP_LIMIT < s.temp := by omega
    simp [dev_write, dev_read, STATUS_MINOR, TEMP_MINOR,
      turn_heating_coil_on, hng]
  · intro hb
    simp [dev_write, dev_read, STATUS_MINOR, TEMP_MINOR,
      turn_heating_coil_off, hb]

/-- C7 witness: from the initial state (temp 0, below the soft ceiling),
writing '1' then reading yields "1\n"; writing '0' then reading yields
"0\n". -/
theorem status_round_trip_witness :
    (dev_read STATUS_MINOR false []
      (dev_write STATUS_MINOR [49] false initState).state).copied = [49, 10] ∧
    (dev_read STATUS_MINOR false []
      (dev_write STATUS_MINOR [48] false initState).state).copied = [48, 10] := by
  have h := status_round_trip initState 48 [] []
  exact ⟨(h.1 (by decide)).1, (h.2 (by decide)).1⟩

/-- C8: a successful TEMP read returns 5 and copies exactly 5 bytes whose
prefix is the decimal ASCII representation of the current `temp` followed
by a newline (`decVal`/`decDigits_digits` certify that representation);
the rest of the 5 bytes is padding (the NUL `sprintf` wrote and leftover
stack bytes, modelled by `junk`); the module state is untouched; and a
faulting copy returns `-EFAULT`.  This holds for every `temp` in 0..4095,
shorter and longer decimal representations alike. -/
theorem temp_read_format (s : CoilState) (junk : List Nat)
    (htemp : s.temp < 4096) (hjunk : 2 ≤ junk.length) :
    (dev_read TEMP_MINOR false junk s).ret = 5 ∧
    (dev_read TEMP_MINOR false junk s).copied.length = 5 ∧
    (dev_read TEMP_MINOR false junk s).copied.take
        ((decDigits s.temp).length + 1) = decDigits s.temp ++ [10] ∧
    decVal (decDigits s.temp) = s.temp ∧
    (∀ d ∈ decDigits s.temp, 48 ≤ d ∧ d ≤ 57) ∧
    (dev_read TEMP_MINOR false junk s).state = s ∧
    (dev_read TEMP_MINOR true junk s).ret = -EFAULT := by
  have hlen1 : 1 ≤ (decDigits s.temp).length := by
    rw [decDigits]; split
    · simp
    · simp
  have hlen4 : (decDigits s.temp).length ≤ 4 := by
    have h10 : s.temp < 10 ^ (3 + 1) := by norm_num; omega
    exact decDigits_length_le 3 s.temp h10
  have hread : dev_read TEMP_MINOR false junk s
      = { state := s, ret := 5,
          copied := (decDigits s.temp ++ [10, 0] ++ junk).take 5 } := rfl
  refine ⟨by rw [hread], ?_, ?_, decVal_decDigits s.temp,
    decDigits_digits s.temp, by rw [hread], rfl⟩
  · rw [hread]
    simp [List.length_take, List.length_append]
    omega
  · rw [hread]
    rw [List.take_take]
    have hmin : min ((decDigits s.temp).length + 1) 5
        = (decDigits s.temp).length + 1 := by omega
    rw [hmin, List.append_assoc, List.take_append]
    simp

/-- C8 witness: at `temp = 4095` (four digits) the read returns 5 and the
copied bytes are "4095\n". -/
theorem temp_read_format_witness :
    (dev_read TEMP_MINOR false [7, 7]
      { heating := false, heatPin := false, temp := 4095 }).ret = 5 ∧
    (dev_read TEMP_MINOR false [7, 7]
      { heating := false, heatPin := false, temp := 4095 }).copied
      = [52, 48, 57, 53, 10] := by
  have h := temp_read_format
    { heating := false, heatPin := false, temp := 4095 } [7, 7]
    (by norm_num) (by norm_num)
  refine ⟨h.1, ?_⟩
  have hd : decDigits 4095 = [52, 48, 57, 53] := by
    rw [decDigits]
    norm_num
    rw [decDigits]
    norm_num
    rw [decDigits]
    norm_num
    rw [decDigits]
    norm_num
  have hread : (dev_read TEMP_MINOR false [7, 7]
      { heating := false, heatPin := false, temp := 4095 }).copied
      = (decDigits 4095 ++ [10, 0] ++ [7, 7]).take 5 := rfl
  rw [hread, hd]
  decide

/-- C9: for every STATUS write of length ≥ 1 the inspection of the first
kernel-buffer byte is in bounds; a zero-length write is not rejected with
`-EINVAL`: it reaches the out-of-bounds read of index 0 of the
zero-length allocation and returns 0. -/
theorem write_first_byte_bounds (kbuf : List Nat) (cf : Bool) (s : CoilState) :
    (1 ≤ kbuf.length → (dev_write STATUS_MINOR kbuf cf s).oobRead = false) ∧
    (kbuf.length = 0 →
      (dev_write STATUS_MINOR kbuf cf s).oobRead = true ∧
      (dev_write STATUS_MINOR kbuf cf s).ret = 0 ∧
      (dev_write STATUS_MINOR kbuf cf s).ret ≠ -EINVAL) := by
  cases kbuf with
  | nil =>
    constructor
    · intro h; simp at h
    · intro _
      have hw : dev_write STATUS_MINOR [] cf s
          = { state := s, events := [], ret := 0, oobRead := true } := rfl
      rw [hw]
      exact ⟨rfl, rfl, show (0 : Int) ≠ -EINVAL by decide⟩
  | cons b rest =>
    constructor
    · intro _
      by_cases hb : b = 49 <;>
        simp [dev_write, STATUS_MINOR, TEMP_MINOR, hb]
    · intro h; simp at h

/-- C9 witness: a one-byte write stays in bounds; the empty write returns
0 and reaches the out-of-bounds access. -/
theorem write_first_byte_bounds_witness :
    (dev_write STATUS_MINOR [49] false initState).oobRead = false ∧
    (dev_write STATUS_MINOR [] false initState).oobRead = true ∧
    (dev_write STATUS_MINOR [] false initState).ret = 0 := by
  have h1 := write_first_byte_bounds [49] false initState
  have h2 := write_first_byte_bounds [] false initState
  exact ⟨h1.1 (by decide), (h2.2 (by decide)).1, (h2.2 (by decide)).2.1⟩

/-- C10: whenever `register_chrdev` for the TEMP name succeeds
(`major > 0`), `coil_init` returns 0 — regardless of whether the watchdog
thread was created.  With no watchdog, `temp` stays at its initial value 0
through any sequence of STATUS client operations (the hard-ceiling trip is
never enforced because only the watchdog publishes `temp` or disengages on
over-temperature), and a STATUS write of '1' still engages the coil since
0 ≤ TEMP_LIMIT. -/
theorem init_tolerates_watchdog_failure (major : Int) (tc : Bool)
    (ops : List StatusOp) (h : 0 < major) :
    (coil_init major tc).ret = 0 ∧
    (coil_init major tc).statusRegistered = true ∧
    (coil_init major false).watchdogRunning = false ∧
    (coil_init major tc).state.temp = 0 ∧
    (runStatusOps ops (coil_init major false).state).temp = 0 ∧
    (dev_write STATUS_MINOR [49] false
      (coil_init major false).state).state.heating = true ∧
    (dev_write STATUS_MINOR [49] false
      (coil_init major false).state).state.heatPin = true := by
  have hn : ¬ major < 0 := by omega
  refine ⟨?_, ?_, ?_, ?_, ?_, ?_, ?_⟩ <;>
    simp [coil_init, hn, h, runStatusOps_temp, initState, dev_write,
      STATUS_MINOR, TEMP_MINOR, turn_heating_coil_on, TEMP_LIMIT]

/-- C10 witness: with `major = 240` and thread creation failed, init
returns 0, no watchdog runs, and a '1' STATUS write engages the coil. -/
theorem init_tolerates_watchdog_failure_witness :
    (coil_init 240 true).ret = 0 ∧
    (coil_init 240 false).watchdogRunning = false ∧
    (dev_write STATUS_MINOR [49] false
      (coil_init 240 false).state).state.heating = true := by
  have h := init_tolerates_watchdog_failure 240 true [] (by norm_num)
  exact ⟨h.1, h.2.2.1, h.2.2.2.2.2.1⟩

end HeatCoil
